import Mathlib

set_option maxRecDepth 40000

/-!
Verification of the SAFELAW judgment structural parser.

Two implementation variants exist in the repository and are embedded here
faithfully:

* the config-driven variant in `backend/Data Preparation/cenral_parser.py`
  (functions `process_document`, `parse_seriatim_judgment`,
  `parse_unitary_judgment`, `split_into_paragraphs`, `extract_citations`,
  `find_main_citation`), whose regex patterns come from `court_config.yaml`
  — that YAML file is not part of the source snapshot, so the pattern
  functions are kept as parameters (a `CentralRules` record) and concrete
  instances are modelled from the spec where needed;

* the self-contained variant in
  `backend/Data Preparation/testing regex parsers/supreme_parser_test.py`
  (functions `strip_xml_tags`, `classify_section`, `extract_citations`,
  `split_into_paragraphs`, `process_document`), whose concrete regexes
  (`JUDGE_HEADER_REGEX`, `PARAGRAPH_SPLIT_REGEX`, `CITATION_REGEX`, and the
  literal alternation patterns inside `classify_section`) are embedded as
  executable scanners over `List Char` with the exact backtracking
  semantics of the Python `re` module on those fixed patterns.

Python strings are modelled as Lean `String` (ASCII inputs; `str.strip`,
`str.lower`, `int(...)` are modelled on the ASCII fragment, which covers
every pattern and literal appearing in the source).
-/

/-- Python `str.isspace` character class used by `str.strip()` and by the
regex class `\s`: space, tab, newline, carriage return, vertical tab,
form feed. -/
def isPyWs (c : Char) : Bool :=
  c == ' ' || c == '\t' || c == '\n' || c == '\r' || c == '\x0b' || c == '\x0c'

/-- Strip leading and trailing Python whitespace from a character list,
modelling `str.strip()`. -/
def pyStripList (l : List Char) : List Char :=
  ((l.dropWhile isPyWs).reverse.dropWhile isPyWs).reverse

/-- Model of Python `str.strip()`. -/
def pyStrip (s : String) : String :=
  (pyStripList s.data).asString

/-- Model of Python `s.rstrip(":")`: drop all trailing colons. -/
def rstripColon (s : String) : String :=
  ((s.data.reverse.dropWhile (fun c => c == ':')).reverse).asString

/-- Model of `content.split('\n')[0]` (and `content.split("\n", 1)[0]`):
the prefix of the string up to the first newline. -/
def firstLine (s : String) : String :=
  (s.data.takeWhile (fun c => c != '\n')).asString

/-- Decimal value of a digit list (most significant first). -/
def digitsToNat (l : List Char) : Nat :=
  l.foldl (fun acc c => acc * 10 + (c.toNat - '0'.toNat)) 0

/-- Detect a doubled underscore, which Python `int()` rejects. -/
def hasDoubleUnderscore : List Char → Bool
  | [] => false
  | [_] => false
  | a :: b :: rest => (a == '_' && b == '_') || hasDoubleUnderscore (b :: rest)

/-- Digit-string body accepted by Python `int()` after sign handling:
nonempty ASCII digits, single underscores allowed strictly between
digits. -/
def pyIntCore (l : List Char) : Option Nat :=
  if l.isEmpty then none
  else if l.head? == some '_' || l.getLast? == some '_' then none
  else if hasDoubleUnderscore l then none
  else
    let digits := l.filter (fun c => c != '_')
    if digits.all Char.isDigit && !digits.isEmpty then some (digitsToNat digits)
    else none

/-- Model of Python `int(s)` on ASCII input: surrounding whitespace is
stripped, an optional sign is accepted, and the body must be digits
(with optional single underscores between digits); otherwise the call
raises `ValueError`, modelled as `none`. -/
def pyInt (s : String) : Option Int :=
  match pyStripList s.data with
  | '-' :: rest => (pyIntCore rest).map (fun n => -(n : Int))
  | '+' :: rest => (pyIntCore rest).map (fun n => (n : Int))
  | t => (pyIntCore t).map (fun n => (n : Int))

/-- Substring test on character lists (used for Python `in` and for
`re.search` of a literal pattern). -/
def containsList : List Char → List Char → Bool
  | [], nee => nee.isEmpty
  | c :: rest, nee => nee.isPrefixOf (c :: rest) || containsList rest nee

/-- Case-insensitive substring test, modelling `re.search(r"(?i)lit", s)`
for a literal `lit`, and `lit in s.lower()` for a lowercase literal. -/
def containsCI (s sub : String) : Bool :=
  containsList (s.data.map Char.toLower) (sub.data.map Char.toLower)

/-- Case-insensitive search for any of a list of literal alternatives,
modelling `re.search(r"(?i)(a|b|...)", s)` for literals `a`, `b`, .... -/
def containsAnyCI (s : String) (subs : List String) : Bool :=
  subs.any (fun sub => containsCI s sub)

/-- Word character for the regex `\b` boundary (`[A-Za-z0-9_]` on ASCII
input). -/
def isWordChar (c : Char) : Bool :=
  c.isAlphanum || c == '_'

/-- Scan a lowered character list for an occurrence of `dissent` with a
word boundary on both sides. `prev` is the character preceding the
current position (`none` at the start of the string). -/
def dissentScan : Option Char → List Char → Bool
  | _, [] => false
  | prev, c :: cs =>
    ((("dissent".data).isPrefixOf (c :: cs)) &&
      (match prev with
        | none => true
        | some p => !isWordChar p) &&
      (match (c :: cs).drop 7 with
        | [] => true
        | d :: _ => !isWordChar d))
    || dissentScan (some c) cs

/-- Model of `re.search(r"(?i)\bdissent\b", s)` and also of
`re.search(r"(?i)\b(i respectfully )?dissent\b", s)`: the optional
`(i respectfully )?` group does not change matchability, because any
match using the group contains a boundary right before `dissent` (the
preceding space), so a match exists iff the word `dissent` occurs with a
word boundary on each side. -/
def searchDissent (s : String) : Bool :=
  dissentScan none (s.data.map Char.toLower)

/-- Consume one XML/HTML tag for the pattern `<[^>]+>`: at least one
non-`>` character followed by `>`. Returns the remainder after the
closing `>`, or `none` when no tag starts here (the greedy `[^>]+`
cannot cross a `>`, so a match always ends at the first `>`). -/
def dropTag (l : List Char) : Option (List Char) :=
  match l with
  | '>' :: _ => none
  | _ =>
    let body := l.takeWhile (fun c => c != '>')
    match l.drop body.length with
    | '>' :: rest => if body.isEmpty then none else some rest
    | _ => none

/-- Fueled scanner for `re.sub(r"<[^>]+>", " ", text)`: each
non-overlapping leftmost tag match is replaced by a single space. -/
def stripTagsAux : Nat → List Char → List Char
  | 0, l => l
  | _, [] => []
  | fuel + 1, c :: rest =>
    if c == '<' then
      match dropTag rest with
      | some rest' => ' ' :: stripTagsAux fuel rest'
      | none => '<' :: stripTagsAux fuel rest
    else c :: stripTagsAux fuel rest

/-- Model of `strip_xml_tags` from `supreme_parser_test.py`. -/
def stripXmlTags (s : String) : String :=
  (stripTagsAux (s.data.length + 1) s.data).asString

/-- Match the pattern `\[\d{4}\]\s+UKSC\s+\d+` (`CITATION_REGEX`) at the
head of the list. Both `\s+` and the final `\d+` are greedy; since no
later pattern element can match a character of the same class, the
greedy runs are forced, so the match is deterministic. Returns the
matched text and the remainder. -/
def matchCitationAt (l : List Char) : Option (String × List Char) :=
  match l with
  | '[' :: t =>
    let year := t.take 4
    if year.length == 4 && year.all Char.isDigit then
      match t.drop 4 with
      | ']' :: t1 =>
        let ws1 := t1.takeWhile isPyWs
        if ws1.isEmpty then none
        else
          let t2 := t1.drop ws1.length
          if ("UKSC".data).isPrefixOf t2 then
            let t3 := t2.drop 4
            let ws2 := t3.takeWhile isPyWs
            if ws2.isEmpty then none
            else
              let t4 := t3.drop ws2.length
              let num := t4.takeWhile Char.isDigit
              if num.isEmpty then none
              else
                some (('[' :: year ++ ']' :: ws1 ++ "UKSC".data ++ ws2 ++ num).asString,
                      t4.drop num.length)
          else none
      | _ => none
    else none
  | _ => none

/-- Fueled left-to-right scan collecting all non-overlapping matches of
`CITATION_REGEX`, modelling `re.findall` (the pattern has no capture
group, so `findall` returns the full match strings). -/
def citScanAll : Nat → List Char → List String
  | 0, _ => []
  | _, [] => []
  | fuel + 1, c :: cs =>
    match matchCitationAt (c :: cs) with
    | some (tok, rest) => tok :: citScanAll fuel rest
    | none => citScanAll fuel cs

/-- Model of `extract_citations` from `supreme_parser_test.py`
(`CITATION_REGEX.findall`). -/
def citFindAll (s : String) : List String :=
  citScanAll (s.data.length + 1) s.data

/-- Fueled scan for the first match of `CITATION_REGEX`. -/
def citScanFirst : Nat → List Char → Option String
  | 0, _ => none
  | _, [] => none
  | fuel + 1, c :: cs =>
    match matchCitationAt (c :: cs) with
    | some (tok, _) => some tok
    | none => citScanFirst fuel cs

/-- Model of `CITATION_REGEX.search(text)`, returning the matched text of
the first match. -/
def citSearch (s : String) : Option String :=
  citScanFirst (s.data.length + 1) s.data

/-- Match the pattern `\n\s*(\d+)\.\s+` (`PARAGRAPH_SPLIT_REGEX`) at the
head of the list. After the literal newline, the greedy `\s*` run is
forced (no whitespace character is a digit, so backtracking inside the
run cannot reach a digit), as are the greedy `\d+` (which must be
followed by the literal dot) and the final greedy `\s+`. Returns the
captured digit token and the remainder after the match. -/
def matchParaAt (l : List Char) : Option (String × List Char) :=
  match l with
  | '\n' :: t =>
    let ws := t.takeWhile isPyWs
    let t1 := t.drop ws.length
    let digits := t1.takeWhile Char.isDigit
    if digits.isEmpty then none
    else
      match t1.drop digits.length with
      | '.' :: t2 =>
        let ws2 := t2.takeWhile isPyWs
        if ws2.isEmpty then none
        else some (digits.asString, t2.drop ws2.length)
      | _ => none
  | _ => none

/-- Fueled scanner producing the result of
`re.split(PARAGRAPH_SPLIT_REGEX, block)` in structured form: the text
before the first match, then the list of (captured number token, text up
to the next match) pairs. With the single capture group, `re.split`
always returns an odd-length list `[pre, num, body, num, body, ...]`,
which this pair representation mirrors exactly. -/
def paraSplitAux : Nat → List Char → List Char → String × List (String × String)
  | _, acc, [] => ((acc.reverse).asString, [])
  | 0, acc, l => ((acc.reverse ++ l).asString, [])
  | fuel + 1, acc, c :: cs =>
    match matchParaAt (c :: cs) with
    | some (tok, rest) =>
      let next := paraSplitAux fuel [] rest
      ((acc.reverse).asString, (tok, next.1) :: next.2)
    | none => paraSplitAux fuel (c :: acc) cs

/-- Model of `re.split(PARAGRAPH_SPLIT_REGEX, block)`. -/
def paragraphSplit (s : String) : String × List (String × String) :=
  paraSplitAux (s.data.length + 1) [] s.data

/-- Character class `[A-Z\- ]` of `JUDGE_HEADER_REGEX`. -/
def headerClassChar (c : Char) : Bool :=
  ('A' ≤ c && c ≤ 'Z') || c == '-' || c == ' '

/-- Largest number `e ≤ bound` of whitespace characters that `\s*` can
consume from `t2` so that `$` holds afterwards (`$` in MULTILINE mode:
end of string, or the next character is a newline). Backtracking tries
the greedy maximum first and shrinks, so the largest valid `e` wins. -/
def findTrailEnd (t2 : List Char) : Nat → Option Nat
  | 0 =>
    if t2.isEmpty || t2.head? == some '\n' then some 0 else none
  | e + 1 =>
    if (t2.drop (e + 1)).isEmpty || (t2.drop (e + 1)).head? == some '\n' then some (e + 1)
    else findTrailEnd t2 e

/-- Match `(LORD|LADY)\s+[A-Z\- ]+:\s*$` at the head of the list (the
caller is responsible for the `^` anchor). The span between the keyword
and the colon is a run over `\s` and the class `[A-Z\- ]` (which share
only the space character); backtracking finds a decomposition into
`\s+` then `[A-Z\- ]+` iff the run has a nonempty whitespace prefix and
a nonempty class suffix that together cover it. Since `:` belongs to
neither class, the colon ending the run is forced. Returns the matched
header text up to (and excluding) the colon, the captured keyword, the
last character consumed by the whole match, and the remainder. -/
def matchHeaderAt (l : List Char) : Option (String × String × Char × List Char) :=
  let kw :=
    if ("LORD".data).isPrefixOf l then some "LORD"
    else if ("LADY".data).isPrefixOf l then some "LADY"
    else none
  match kw with
  | none => none
  | some kwStr =>
    let t := l.drop 4
    let run := t.takeWhile (fun c => isPyWs c || headerClassChar c)
    match t.drop run.length with
    | ':' :: t2 =>
      let wsPfx := run.takeWhile isPyWs
      let clsSfx := run.reverse.takeWhile headerClassChar
      if 1 ≤ wsPfx.length && 1 ≤ clsSfx.length && run.length ≤ wsPfx.length + clsSfx.length then
        match findTrailEnd t2 (t2.takeWhile isPyWs).length with
        | some e =>
          let lastC := match (t2.take e).getLast? with
            | some c => c
            | none => ':'
          some ((kwStr.data ++ run).asString, kwStr, lastC, t2.drop e)
        | none => none
      else none
    | _ => none

/-- Fueled scanner for `re.split(JUDGE_HEADER_REGEX, text)` with the
MULTILINE `^` anchor: a match may start only at the beginning of the
string or right after a newline. `re.split` keeps the text of the
capture group between the pieces; in `JUDGE_HEADER_REGEX` the group is
`(LORD|LADY)`, so the self-contained variant receives just the keyword
(`useFull = false`), while the spec-modelled YAML header pattern is
described as capturing the full header without its colon
(`useFull = true`). -/
def headerSplitAux (useFull : Bool) : Nat → Bool → List Char → List Char → List String
  | _, _, acc, [] => [(acc.reverse).asString]
  | 0, _, acc, l => [(acc.reverse ++ l).asString]
  | fuel + 1, lineStart, acc, c :: cs =>
    if lineStart then
      match matchHeaderAt (c :: cs) with
      | some (full, kw, lastC, rest) =>
        (acc.reverse).asString ::
          (if useFull then full else kw) ::
            headerSplitAux useFull fuel (lastC == '\n') [] rest
      | none => headerSplitAux useFull fuel (c == '\n') (c :: acc) cs
    else headerSplitAux useFull fuel (c == '\n') (c :: acc) cs

/-- Model of `re.split(JUDGE_HEADER_REGEX, text)` as used by
`supreme_parser_test.py`: the pieces are interleaved with the captured
keyword only. -/
def headerSplit (s : String) : List String :=
  headerSplitAux false (s.data.length + 1) true [] s.data

/-- Model of `JUDGE_HEADER_REGEX.match(segment + ":")` — an anchored
match attempt at position 0 of the segment with a colon appended. -/
def isHeaderTest (seg : String) : Bool :=
  (matchHeaderAt (seg ++ ":").data).isSome

/-- One numbered paragraph plus its metadata, as built by both variants
of `split_into_paragraphs` (the dict appended to `chunks`). -/
structure ParagraphChunk where
  para_number : Int
  content_text : String
  author_name : String
  opinion_type : String
  section_type : String
  has_citation : Bool
  cited_cases : List String
deriving Repr, DecidableEq

/-- Output record of `process_document` in `supreme_parser_test.py`. -/
structure ParsedCaseTest where
  filename : String
  citation : String
  court_level : String
  chunks : List ParagraphChunk
deriving Repr, DecidableEq

/-- Output record of the parsers in `cenral_parser.py` (`case_data`). -/
structure ParsedCaseCentral where
  citation : String
  court_level : String
  chunks : List ParagraphChunk
deriving Repr, DecidableEq

/-- Model of `classify_section` from `supreme_parser_test.py`: facts
(gated on lead opinion and paragraph number at most 25, first line
only), then lower-court history, then conclusion phrases, else
analysis. The three literal alternation regexes are modelled by
`containsAnyCI` over their expanded alternative lists. -/
def classifySection (paraNum : Int) (content : String) (isLead : Bool) : String :=
  if isLead = true ∧ paraNum ≤ 25 ∧
      containsAnyCI (firstLine content)
        ["background", "facts", "introduction", "procedural history"] = true then
    "facts"
  else if containsAnyCI content
      ["court of appeal", "high court", "judge at first instance",
       "tribunal below", "lower court"] = true then
    "history_lower_court"
  else if containsAnyCI content
      ["for these reasons", "for all these reasons",
       "i would allow the appeal", "i would dismiss the appeal",
       "i will allow the appeal", "i will dismiss the appeal",
       "the appeal is allowed", "the appeal is dismissed",
       "the appeal should be allowed", "the appeal should be dismissed"] = true then
    "conclusion"
  else "analysis"

/-- Core pair loop of `split_into_paragraphs` from
`supreme_parser_test.py`, walking the (number token, body) pairs of the
alternating split result: a token rejected by `int()` is skipped
(`except ValueError: continue`), an empty trimmed body is skipped, and
otherwise a chunk is emitted with a per-paragraph dissent override. -/
def splitTestPairs : List (String × String) → String → String → Bool → List ParagraphChunk
  | [], _, _, _ => []
  | (tok, body) :: rest, author, opinion, isLead =>
    match pyInt tok with
    | none => splitTestPairs rest author opinion isLead
    | some n =>
      let content := pyStrip body
      if content = "" then splitTestPairs rest author opinion isLead
      else
        let sectionType := classifySection n content isLead
        let localOpinion := if searchDissent content then "dissenting" else opinion
        let citations := citFindAll content
        { para_number := n, content_text := content, author_name := author,
          opinion_type := localOpinion, section_type := sectionType,
          has_citation := !citations.isEmpty, cited_cases := citations }
          :: splitTestPairs rest author opinion isLead

/-- Model of `split_into_paragraphs` from `supreme_parser_test.py`: split
the block on `PARAGRAPH_SPLIT_REGEX`, discard the text before the first
match, and walk the pairs. -/
def splitIntoParagraphsTest (block author opinion : String) (isLead : Bool) : List ParagraphChunk :=
  splitTestPairs (paragraphSplit block).2 author opinion isLead

/-- Segment-level opinion assignment in `process_document` of
`supreme_parser_test.py`: majority for the lead, concurring otherwise,
overridden to dissenting when the word `dissent` occurs in the author
name or in the block. -/
def testOpinion (author block : String) (isLead : Bool) : String :=
  let base := if isLead then "majority" else "concurring"
  if searchDissent author || searchDissent block then "dissenting" else base

/-- Segment loop of `process_document` from `supreme_parser_test.py`:
header segments update the current author; body segments shorter than
50 characters after trimming are skipped; the `seen_first_judge` flag
becomes true only when a lead segment actually produced chunks. -/
def processTestLoop : String → Bool → List String → List ParagraphChunk
  | _, _, [] => []
  | author, seen, seg :: rest =>
    if isHeaderTest seg then
      processTestLoop (rstripColon (pyStrip seg)) seen rest
    else
      let block := pyStrip seg
      if block.length < 50 then processTestLoop author seen rest
      else
        let isLead := !seen
        let opinion := testOpinion author block isLead
        let newChunks := splitIntoParagraphsTest block author opinion isLead
        newChunks ++
          processTestLoop author
            (if !newChunks.isEmpty && isLead then true else seen) rest

/-- Model of `process_document` from `supreme_parser_test.py`: strip XML
tags, search the document citation, split on the judge-header pattern
and run the segment loop starting from author `Unknown Judge` with the
`seen_first_judge` flag false. -/
def processDocumentTest (rawText fname : String) : ParsedCaseTest :=
  let text := stripXmlTags rawText
  let citation := match citSearch text with
    | some m => m
    | none => "Unknown Citation"
  { filename := fname, citation := citation, court_level := "UKSC",
    chunks := processTestLoop "Unknown Judge" false (headerSplit text) }

/-- Patterns of `cenral_parser.py` pulled from `CONFIG` at run time. The
backing `court_config.yaml` is not part of the source snapshot, so each
regex application is kept as a function parameter: `factsPatterns` and
`dissentPatterns` model `re.search(pattern, ...)` for each entry of
`CONFIG['section_patterns']`, `citationFind` models `re.findall` of
`CONFIG['parsing_rules']['citation_regex']`, `paragraphSplit` models
`re.split` of the paragraph regex (structured as before-text plus
number/body pairs, the shape `re.split` with one capture group always
produces), `judgeSplit` models `re.split` of the judge header regex and
`judgeHeaderMatch` models `re.match(judge_regex, segment + ":")`. -/
structure CentralRules where
  factsPatterns : List (String → Bool)
  dissentPatterns : List (String → Bool)
  citationFind : String → List String
  paragraphSplit : String → String × List (String × String)
  judgeSplit : String → List String
  judgeHeaderMatch : String → Bool

/-- A court entry of `CONFIG['courts']`. `identSearch` models
`re.search(identification_regex, text)` returning the matched text,
used both for detection (`is not None`) and for `find_main_citation`
(`match.group(0)`), which apply the same regex to the same text. -/
structure Court where
  identSearch : String → Option String
  structureType : String
  dbCode : String
  name : String

/-- Core pair loop of `split_into_paragraphs` from `cenral_parser.py`.
`int(parts[k])` is unguarded there, so a token rejected by `int()`
raises `ValueError` and aborts the whole call (`Except.error`). The
paragraph-level dissent override reassigns the `opinion_type` variable
of the enclosing function, so it carries over to all later pairs of the
same block; there is no empty-body discard. -/
def centralSplitPairs (rules : CentralRules) :
    List (String × String) → String → String → Bool → Except Unit (List ParagraphChunk)
  | [], _, _, _ => .ok []
  | (tok, body) :: rest, author, opinion, isLead =>
    match pyInt tok with
    | none => .error ()
    | some n =>
      let content := pyStrip body
      let sectionType :=
        if isLead && decide (n < 25) && rules.factsPatterns.any (fun pat => pat (firstLine content)) then
          "facts"
        else "analysis"
      let opinion' :=
        if decide (n < 10) && rules.dissentPatterns.any (fun pat => pat content) then
          "dissenting"
        else opinion
      let citations := rules.citationFind content
      match centralSplitPairs rules rest author opinion' isLead with
      | .error e => .error e
      | .ok tail =>
        .ok ({ para_number := n, content_text := content, author_name := author,
               opinion_type := opinion', section_type := sectionType,
               has_citation := decide (0 < citations.length), cited_cases := citations }
              :: tail)

/-- Model of `split_into_paragraphs` from `cenral_parser.py`: split the
block with the configured paragraph regex and walk the pairs. -/
def centralSplitIntoParagraphs (rules : CentralRules) (block author opinion : String)
    (isLead : Bool) : Except Unit (List ParagraphChunk) :=
  centralSplitPairs rules (rules.paragraphSplit block).2 author opinion isLead

/-- Whether a number/body pair fires the early-dissent override of
`cenral_parser.py`: its token parses and the parsed number is below 10
and some dissent-indicator pattern matches the trimmed body. -/
def centralTrigger (rules : CentralRules) (p : String × String) : Bool :=
  match pyInt p.1 with
  | some n => decide (n < 10) && rules.dissentPatterns.any (fun pat => pat (pyStrip p.2))
  | none => false

/-- Segment-level opinion assignment in `parse_seriatim_judgment`: the
raw enumeration index decides majority (`i < 3`) versus concurring, and
the substring `dissent` in the lowered current author name overrides to
dissenting. -/
def centralOpinionForSegment (i : Nat) (author : String) : String :=
  let base := if i < 3 then "majority" else "concurring"
  if containsCI author "dissent" then "dissenting" else base

/-- Segment loop of `parse_seriatim_judgment` from `cenral_parser.py`,
carrying the current author and the enumeration index: header segments
(recognized by re-matching with a colon appended) update the author;
body segments whose trimmed length exceeds 50 are chunked with the
index-based opinion; a `ValueError` from the segmenter propagates. -/
def parseSeriatimLoop (rules : CentralRules) :
    String → Nat → List String → Except Unit (List ParagraphChunk)
  | _, _, [] => .ok []
  | author, i, seg :: rest =>
    if rules.judgeHeaderMatch seg then
      parseSeriatimLoop rules (pyStrip seg) (i + 1) rest
    else if 50 < (pyStrip seg).length then
      let opinion := centralOpinionForSegment i author
      match centralSplitIntoParagraphs rules seg author opinion (opinion == "majority") with
      | .error e => .error e
      | .ok cs =>
        match parseSeriatimLoop rules author (i + 1) rest with
        | .error e => .error e
        | .ok more => .ok (cs ++ more)
    else parseSeriatimLoop rules author (i + 1) rest

/-- Main citation lookup of `find_main_citation` in `cenral_parser.py`. -/
def findMainCitation (court : Court) (text : String) : String :=
  match court.identSearch text with
  | some m => m
  | none => "Unknown Citation"

/-- Model of `parse_seriatim_judgment` from `cenral_parser.py`. -/
def parseSeriatimCentral (rules : CentralRules) (court : Court) (text : String) :
    Except Unit ParsedCaseCentral :=
  match parseSeriatimLoop rules "Unknown" 0 (rules.judgeSplit text) with
  | .error e => .error e
  | .ok cs =>
    .ok { citation := findMainCitation court text, court_level := court.dbCode, chunks := cs }

/-- Model of `parse_unitary_judgment` from `cenral_parser.py`: the whole
text as one majority block by the Tribunal Panel. -/
def parseUnitaryCentral (rules : CentralRules) (court : Court) (text : String) :
    Except Unit ParsedCaseCentral :=
  match centralSplitIntoParagraphs rules text "Tribunal Panel" "majority" true with
  | .error e => .error e
  | .ok cs =>
    .ok { citation := findMainCitation court text, court_level := court.dbCode, chunks := cs }

/-- Model of `process_document` from `cenral_parser.py`: find the first
court whose identification regex matches, return `none` when no court
matches, dispatch on `structure_type`, and fall through to `none` for
any other structure type. -/
def processDocumentCentral (rules : CentralRules) (courts : List Court) (text : String) :
    Except Unit (Option ParsedCaseCentral) :=
  match courts.find? (fun c => (c.identSearch text).isSome) with
  | none => .ok none
  | some court =>
    if court.structureType == "seriatim" then
      match parseSeriatimCentral rules court text with
      | .error e => .error e
      | .ok pc => .ok (some pc)
    else if court.structureType == "unitary" then
      match parseUnitaryCentral rules court text with
      | .error e => .error e
      | .ok pc => .ok (some pc)
    else .ok none

/-- Model of `re.split` for the YAML judge header pattern. Modelled from
the spec: `court_config.yaml` is not in the source snapshot; spec §4.3
describes a header pattern recognizing lines such as `LORD REED:` whose
capture group drops the trailing colon, so the split interleaves the
full header text without its colon. -/
def specJudgeSplit (s : String) : List String :=
  headerSplitAux true (s.data.length + 1) true [] s.data

/-- Model of `re.match(judge_regex, segment + ":")` for the YAML judge
header pattern. Modelled from the spec: a segment is a header if it
matches the header pattern again after a colon is appended. -/
def specJudgeHeaderMatch (seg : String) : Bool :=
  (matchHeaderAt (seg ++ ":").data).isSome

/-- Concrete `CentralRules` instance used for witnesses and
counterexamples. Modelled from the spec: the YAML facts patterns are
facts-indicator phrases such as `background` and `introduction`, the
dissent indicators are dissent announcements (the word `dissent`), the
citation regex is the neutral-citation pattern, and the paragraph and
judge header patterns are the ones described in §3/§4.3. -/
def exRules : CentralRules where
  factsPatterns := [fun s => containsCI s "background", fun s => containsCI s "introduction"]
  dissentPatterns := [fun s => searchDissent s]
  citationFind := citFindAll
  paragraphSplit := paragraphSplit
  judgeSplit := specJudgeSplit
  judgeHeaderMatch := specJudgeHeaderMatch

/-- A seriatim court profile instance (used with the config-driven
parser in witnesses and counterexamples). -/
def serCourt : Court where
  identSearch := citSearch
  structureType := "seriatim"
  dbCode := "UKSC"
  name := "UK Supreme Court"

/-- A unitary (tribunal) court profile instance. -/
def unitCourt : Court where
  identSearch := citSearch
  structureType := "unitary"
  dbCode := "UKFTT"
  name := "First-tier Tribunal"

/-- A court profile whose structure type is neither `seriatim` nor
`unitary`, and which matches every document. -/
def weirdCourt : Court where
  identSearch := fun _ => some "MATCH"
  structureType := "en_banc"
  dbCode := "X"
  name := "Odd Court"

/-- Scenario input for the dissent-by-header claim: a `LORD REED:`
header line with a body, then a `LORD X (DISSENTING):` header line with
a body longer than 50 characters. -/
def exC5Text : String :=
  "Preamble [2024] UKSC 24.\nLORD REED:\n1. This is the first paragraph of the lead opinion and it is certainly long enough.\nLORD X (DISSENTING):\n2. This paragraph follows the second header and is also long enough to count."

/-- Seriatim document whose judge-header split produces a preamble, a
header, a first body, a second header and a second body (raw split
indices 0 to 4). -/
def exC3Text : String :=
  "Intro [2024] UKSC 9\nLORD AAA:\n1. First body segment with plenty of words to exceed the fifty character minimum easily.\nLORD BBB:\n1. Second body segment also with plenty of words to exceed the fifty character minimum."

/-- Concrete pair list whose first body fires the dissent override and
whose second body does not. -/
def c1Pairs : List (String × String) :=
  [("1", "We dissent from the result."), ("2", "Plain text paragraph.")]

/-- Concrete segment list starting at raw index 3 (a later body
segment). -/
def c3wSegs : List String :=
  ["\n1. Second-judge paragraph content long enough to produce a chunk easily here."]

/-- The chunk the config-driven seriatim loop produces from `c3wSegs`
at index 3. -/
def c3wChunk : ParagraphChunk :=
  { para_number := 1,
    content_text := "Second-judge paragraph content long enough to produce a chunk easily here.",
    author_name := "Unknown", opinion_type := "concurring", section_type := "analysis",
    has_citation := false, cited_cases := [] }

/-- Document with a single numbered paragraph that cites a case. -/
def c4Text : String :=
  "See [2024] UKSC 5 here\n1. A paragraph citing [2024] UKSC 5 and long enough to pass the fifty char threshold."

/-- The chunk the self-contained parser produces from `c4Text`. -/
def c4Chunk : ParagraphChunk :=
  { para_number := 1,
    content_text := "A paragraph citing [2024] UKSC 5 and long enough to pass the fifty char threshold.",
    author_name := "Unknown Judge", opinion_type := "majority", section_type := "analysis",
    has_citation := true, cited_cases := ["[2024] UKSC 5"] }

/-- The chunk the self-contained pair loop produces from a simple
pair. -/
def c7wChunk : ParagraphChunk :=
  { para_number := 1, content_text := "Hello there world", author_name := "A",
    opinion_type := "majority", section_type := "analysis",
    has_citation := false, cited_cases := [] }

/-- A 60-character body segment containing no numbered paragraph, so the
segmenter returns no chunks for it. -/
def c10Seg : String :=
  "xxxxxxxxxxxxxxxxxxxxxxxxxxxxxxxxxxxxxxxxxxxxxxxxxxxxxxxxxxxx"

/-- Remaining segments after the chunkless qualifying segment. -/
def c10Rest : List String :=
  ["\n1. This second segment is long enough and should become the lead majority opinion now."]

/-- Helper: `has_citation` matches non-emptiness of `cited_cases` in
every chunk emitted by the self-contained pair loop. -/
theorem splitTestPairs_citation (pairs : List (String × String)) (author opinion : String)
    (isLead : Bool) :
    ∀ c ∈ splitTestPairs pairs author opinion isLead,
      (c.has_citation = true ↔ c.cited_cases ≠ []) := by
  induction pairs with
  | nil => intro c hc; simp [splitTestPairs] at hc
  | cons p rest ih =>
    obtain ⟨tok, body⟩ := p
    intro c hc
    rcases h : pyInt tok with _ | n
    · rw [splitTestPairs, h] at hc
      exact ih c hc
    · rw [splitTestPairs, h] at hc
      simp only [] at hc
      split at hc
      · exact ih c hc
      · rcases List.mem_cons.1 hc with rfl | hmem
        · simp [List.isEmpty_iff]
        · exact ih c hmem

/-- Helper: `has_citation` matches non-emptiness of `cited_cases` in
every chunk emitted by the config-driven pair loop. -/
theorem centralSplitPairs_citation (rules : CentralRules) (pairs : List (String × String)) :
    ∀ author opinion isLead cs,
      centralSplitPairs rules pairs author opinion isLead = .ok cs →
      ∀ c ∈ cs, (c.has_citation = true ↔ c.cited_cases ≠ []) := by
  induction pairs with
  | nil =>
    intro a o l cs h c hc
    rw [centralSplitPairs] at h
    cases h
    simp at hc
  | cons p rest ih =>
    obtain ⟨tok, body⟩ := p
    intro a o l cs h c hc
    rcases hn : pyInt tok with _ | n
    · rw [centralSplitPairs, hn] at h
      cases h
    · rw [centralSplitPairs, hn] at h
      simp only [] at h
      split at h
      · cases h
      · cases h
        rcases List.mem_cons.1 hc with rfl | hmem
        · simp [List.length_pos]
        · exact ih _ _ _ _ (by assumption) c hmem

/-- Helper: the config-driven pair loop never introduces the opinion
`majority`; starting from `concurring` or `dissenting`, every emitted
chunk stays in that set. -/
theorem centralSplitPairs_opinion_mem (rules : CentralRules) (pairs : List (String × String)) :
    ∀ author opinion isLead cs,
      (opinion = "concurring" ∨ opinion = "dissenting") →
      centralSplitPairs rules pairs author opinion isLead = .ok cs →
      ∀ c ∈ cs, (c.opinion_type = "concurring" ∨ c.opinion_type = "dissenting") := by
  induction pairs with
  | nil =>
    intro a o l cs _ h c hc
    rw [centralSplitPairs] at h
    cases h
    simp at hc
  | cons p rest ih =>
    obtain ⟨tok, body⟩ := p
    intro a o l cs ho h c hc
    rcases hn : pyInt tok with _ | n
    · rw [centralSplitPairs, hn] at h
      cases h
    · rw [centralSplitPairs, hn] at h
      simp only [] at h
      have ho' :
          (if (decide (n < 10) && rules.dissentPatterns.any (fun pat => pat (pyStrip body))) = true
            then "dissenting" else o) = "concurring" ∨
          (if (decide (n < 10) && rules.dissentPatterns.any (fun pat => pat (pyStrip body))) = true
            then "dissenting" else o) = "dissenting" := by
        split
        · exact Or.inr rfl
        · exact ho
      split at h
      · cases h
      · cases h
        rcases List.mem_cons.1 hc with rfl | hmem
        · exact ho'
        · exact ih _ _ _ _ ho' (by assumption) c hmem

/-- Helper: when the number token parses, `centralTrigger` computes the
dissent-override condition of the config-driven pair loop. -/
theorem centralTrigger_eq (rules : CentralRules) (tok body : String) (n : Int)
    (h : pyInt tok = some n) :
    centralTrigger rules (tok, body) =
      (decide (n < 10) && rules.dissentPatterns.any (fun pat => pat (pyStrip body))) := by
  simp [centralTrigger, h]

/-- Helper: merging a nested boolean conditional with a disjunction. -/
theorem ite_nested_or (x c : Bool) (d o : String) :
    (if x = true then d else if c = true then d else o) =
      (if (c || x) = true then d else o) := by
  cases c <;> cases x <;> simp

/-- C1 (amended): in the config-driven Paragraph Segmenter, when every
number token parses, the i-th chunk's opinion type is `dissenting`
exactly when some pair among the first i+1 fires the early-dissent
override — the override set by a triggering paragraph persists for all
later paragraphs of the same block, while paragraphs before the first
trigger keep the opinion type passed in. -/
theorem centralDissent_sticky (rules : CentralRules) (author : String) (isLead : Bool)
    (pairs : List (String × String)) :
    ∀ opinion, (∀ p ∈ pairs, (pyInt p.fst).isSome) →
      ∃ chunks, centralSplitPairs rules pairs author opinion isLead = Except.ok chunks ∧
        chunks.length = pairs.length ∧
        ∀ i, ∀ hi : i < chunks.length,
          (chunks.get ⟨i, hi⟩).opinion_type =
            (if (pairs.take (i + 1)).any (centralTrigger rules) then "dissenting" else opinion) := by
  induction pairs with
  | nil =>
    intro o _
    refine ⟨[], rfl, rfl, ?_⟩
    intro i hi
    simp at hi
  | cons p rest ih =>
    obtain ⟨tok, body⟩ := p
    intro o h
    have htok : (pyInt tok).isSome := h (tok, body) (List.mem_cons_self _ _)
    rcases hn : pyInt tok with _ | n
    · rw [hn] at htok
      simp at htok
    · obtain ⟨tail, htail, hlen, hchar⟩ :=
        ih (if (decide (n < 10) && rules.dissentPatterns.any (fun pat => pat (pyStrip body))) = true
              then "dissenting" else o)
          (fun q hq => h q (List.mem_cons_of_mem _ hq))
      refine ⟨{ para_number := n, content_text := pyStrip body, author_name := author,
                opinion_type :=
                  if (decide (n < 10) &&
                      rules.dissentPatterns.any (fun pat => pat (pyStrip body))) = true
                    then "dissenting" else o,
                section_type :=
                  if (isLead && decide (n < 25) &&
                      rules.factsPatterns.any (fun pat => pat (firstLine (pyStrip body)))) = true
                    then "facts" else "analysis",
                has_citation := decide (0 < (rules.citationFind (pyStrip body)).length),
                cited_cases := rules.citationFind (pyStrip body) } :: tail,
              ?_, by simp [hlen], ?_⟩
      · rw [centralSplitPairs, hn]
        simp only []
        rw [htail]
      · intro i hi
        cases i with
        | zero =>
          simp only [List.get, List.take, List.any_cons, List.any_nil, Bool.or_false,
            centralTrigger_eq rules tok body n hn]
        | succ j =>
          have hj : j < tail.length := by
            simpa using Nat.lt_of_succ_lt_succ hi
          have := hchar j hj
          simp only [List.get_cons_succ, List.take_succ_cons, List.any_cons,
            centralTrigger_eq rules tok body n hn]
          rw [this]
          exact ite_nested_or _ _ _ _

/-- C7 (amended): the self-contained pair loop trims each body and
discards empty trimmed bodies, so every chunk it emits has nonempty
content text. -/
theorem testChunks_nonempty_content :
    ∀ (pairs : List (String × String)) (author opinion : String) (isLead : Bool),
      ∀ c ∈ splitTestPairs pairs author opinion isLead, c.content_text ≠ "" := by
  intro pairs author opinion isLead
  induction pairs with
  | nil => intro c hc; simp [splitTestPairs] at hc
  | cons p rest ih =>
    obtain ⟨tok, body⟩ := p
    intro c hc
    rcases h : pyInt tok with _ | n
    · rw [splitTestPairs, h] at hc
      exact ih c hc
    · rw [splitTestPairs, h] at hc
      simp only [] at hc
      by_cases hb : pyStrip body = ""
      · rw [if_pos hb] at hc
        exact ih c hc
      · rw [if_neg hb] at hc
        rcases List.mem_cons.1 hc with rfl | hmem
        · simpa using hb
        · exact ih c hmem

/-- C2 (amended): in the self-contained pair loop, a number token
rejected by `int()` makes that number/body pair be skipped, and parsing
continues with the remaining pairs of the same block. -/
theorem testMalformedToken_skipped (tok body : String) (rest : List (String × String))
    (author opinion : String) (isLead : Bool) (h : pyInt tok = none) :
    splitTestPairs ((tok, body) :: rest) author opinion isLead =
      splitTestPairs rest author opinion isLead := by
  rw [splitTestPairs, h]

/-- C2 (counterexample): the config-driven pair loop applies `int()`
unguarded, so a malformed number token aborts the whole block with an
error instead of being skipped. -/
theorem centralMalformedToken_raises :
    centralSplitPairs exRules [("abc", "Some body text here.")] "A" "majority" true =
      Except.error () := rfl

/-- C2 (witness): the skip equation applied at a concrete malformed
token. -/
theorem testMalformedToken_skipped_inst :
    pyInt "x9" = none ∧
      splitTestPairs [("x9", "Broken pair body."), ("3", "A body that stays.")] "A" "majority" true =
        splitTestPairs [("3", "A body that stays.")] "A" "majority" true :=
  ⟨by decide,
    testMalformedToken_skipped "x9" "Broken pair body." [("3", "A body that stays.")]
      "A" "majority" true (by decide)⟩

/-- C1 (counterexample): with opinion `majority` passed in, the first
pair fires the early-dissent override and the second pair — whose body
matches no dissent indicator, as the second conjunct certifies — is
nevertheless emitted as `dissenting`, not `majority`: the override is
not local to the triggering paragraph. -/
theorem centralDissent_not_local :
    (centralSplitPairs exRules c1Pairs "Judge" "majority" true).map
        (fun cs => cs.map (fun c => c.opinion_type)) =
      Except.ok ["dissenting", "dissenting"] ∧
    centralTrigger exRules ("2", "Plain text paragraph.") = false :=
  ⟨rfl, rfl⟩

/-- C1 (witness): the sticky characterization applied at a concrete
block with all tokens parseable. -/
theorem centralDissent_sticky_inst :
    (∀ p ∈ c1Pairs, (pyInt p.fst).isSome) ∧
      (∃ chunks, centralSplitPairs exRules c1Pairs "Judge" "majority" true = Except.ok chunks ∧
        chunks.length = c1Pairs.length ∧
        ∀ i, ∀ hi : i < chunks.length,
          (chunks.get ⟨i, hi⟩).opinion_type =
            (if (c1Pairs.take (i + 1)).any (centralTrigger exRules) then "dissenting"
              else "majority")) :=
  ⟨by decide, centralDissent_sticky exRules "Judge" true c1Pairs "majority" (by decide)⟩

/-- Helper: at raw segment index 3 or later, the segment-level opinion of
the config-driven seriatim loop is `concurring` or `dissenting`, never
`majority`. -/
theorem centralOpinionForSegment_late (i : Nat) (author : String) (h : 3 ≤ i) :
    centralOpinionForSegment i author = "concurring" ∨
      centralOpinionForSegment i author = "dissenting" := by
  unfold centralOpinionForSegment
  simp only []
  split
  · exact Or.inr rfl
  · left
    rw [if_neg (by omega)]

/-- C3 (amended): from raw split index 3 onwards, every chunk produced by
the config-driven seriatim loop has opinion type `concurring` or
`dissenting` — only body segments at raw indices 0 to 2 of the split
list (preamble and header segments included in the numbering) can be
presumptively `majority`. -/
theorem seriatimLateIndex_not_majority (rules : CentralRules) :
    ∀ (segs : List String) (author : String) (i : Nat) (cs : List ParagraphChunk),
      3 ≤ i → parseSeriatimLoop rules author i segs = Except.ok cs →
      ∀ c ∈ cs, (c.opinion_type = "concurring" ∨ c.opinion_type = "dissenting") := by
  intro segs
  induction segs with
  | nil =>
    intro a i cs _ h c hc
    rw [parseSeriatimLoop] at h
    cases h
    simp at hc
  | cons seg rest ih =>
    intro a i cs h3 h c hc
    rw [parseSeriatimLoop] at h
    split at h
    · exact ih _ (i + 1) cs (by omega) h c hc
    · split at h
      · simp only [] at h
        split at h
        · cases h
        · rename_i cs1 heq1
          split at h
          · cases h
          · rename_i more heq2
            cases h
            rcases List.mem_append.1 hc with hmem | hmem
            · rw [centralSplitIntoParagraphs] at heq1
              exact centralSplitPairs_opinion_mem rules _ _ _ _ _
                (centralOpinionForSegment_late i a h3) heq1 c hmem
            · exact ih _ (i + 1) _ (by omega) heq2 c hmem
      · exact ih _ (i + 1) cs (by omega) h c hc

/-- C3 (counterexample): on a seriatim document with a preamble, two
judge headers and two qualifying body segments, the second body segment
— only the second body segment encountered, but at raw split index 4 —
is assigned `concurring`, not `majority` as the first-three-body-
segments reading predicts. -/
theorem seriatimSecondBody_concurring :
    (parseSeriatimCentral exRules serCourt exC3Text).map
        (fun pc => pc.chunks.map (fun c => c.opinion_type)) =
      Except.ok ["majority", "concurring"] := rfl

/-- C3 (witness): the late-index property applied at index 3 with a
concrete qualifying segment. -/
theorem seriatimLateIndex_not_majority_inst :
    3 ≤ 3 ∧
      parseSeriatimLoop exRules "Unknown" 3 c3wSegs = Except.ok [c3wChunk] ∧
      (∀ c ∈ [c3wChunk], (c.opinion_type = "concurring" ∨ c.opinion_type = "dissenting")) :=
  ⟨by decide, rfl,
    seriatimLateIndex_not_majority exRules c3wSegs "Unknown" 3 [c3wChunk] (by decide) rfl⟩

/-- Helper: the citation invariant holds for every chunk produced by the
segment loop of the self-contained parser. -/
theorem processTestLoop_citation :
    ∀ (segs : List String) (author : String) (seen : Bool),
      ∀ c ∈ processTestLoop author seen segs,
        (c.has_citation = true ↔ c.cited_cases ≠ []) := by
  intro segs
  induction segs with
  | nil =>
    intro a s c hc
    rw [processTestLoop] at hc
    simp at hc
  | cons seg rest ih =>
    intro a s c hc
    rw [processTestLoop] at hc
    split at hc
    · exact ih _ _ c hc
    · simp only [] at hc
      split at hc
      · exact ih _ _ c hc
      · rcases List.mem_append.1 hc with hmem | hmem
        · rw [splitIntoParagraphsTest] at hmem
          exact splitTestPairs_citation _ _ _ _ c hmem
        · exact ih _ _ c hmem

/-- Helper: the citation invariant holds for every chunk produced by the
segment loop of the config-driven seriatim parser. -/
theorem parseSeriatimLoop_citation (rules : CentralRules) :
    ∀ (segs : List String) (author : String) (i : Nat) (cs : List ParagraphChunk),
      parseSeriatimLoop rules author i segs = Except.ok cs →
      ∀ c ∈ cs, (c.has_citation = true ↔ c.cited_cases ≠ []) := by
  intro segs
  induction segs with
  | nil =>
    intro a i cs h c hc
    rw [parseSeriatimLoop] at h
    cases h
    simp at hc
  | cons seg rest ih =>
    intro a i cs h c hc
    rw [parseSeriatimLoop] at h
    split at h
    · exact ih _ (i + 1) cs h c hc
    · split at h
      · simp only [] at h
        split at h
        · cases h
        · rename_i cs1 heq1
          split at h
          · cases h
          · rename_i more heq2
            cases h
            rcases List.mem_append.1 hc with hmem | hmem
            · rw [centralSplitIntoParagraphs] at heq1
              exact centralSplitPairs_citation rules _ _ _ _ _ heq1 c hmem
            · exact ih _ (i + 1) _ heq2 c hmem
      · exact ih _ (i + 1) cs h c hc

/-- C4: in both parser variants, every chunk of every parse result
satisfies `has_citation = true` exactly when `cited_cases` is
nonempty. -/
theorem hasCitation_iff_citedCases :
    (∀ (rawText fname : String), ∀ c ∈ (processDocumentTest rawText fname).chunks,
      (c.has_citation = true ↔ c.cited_cases ≠ [])) ∧
    (∀ (rules : CentralRules) (courts : List Court) (text : String) (pc : ParsedCaseCentral),
      processDocumentCentral rules courts text = Except.ok (some pc) →
      ∀ c ∈ pc.chunks, (c.has_citation = true ↔ c.cited_cases ≠ [])) := by
  constructor
  · intro rawText fname c hc
    simp only [processDocumentTest] at hc
    exact processTestLoop_citation _ _ _ c hc
  · intro rules courts text pc h c hc
    rw [processDocumentCentral] at h
    split at h
    · cases h
    · split at h
      · split at h
        · cases h
        · rename_i pc1 heqPC
          cases h
          rw [parseSeriatimCentral] at heqPC
          split at heqPC
          · cases heqPC
          · rename_i cs heq
            cases heqPC
            exact parseSeriatimLoop_citation rules _ _ _ _ heq c hc
      · split at h
        · split at h
          · cases h
          · rename_i pc1 heqPC
            cases h
            rw [parseUnitaryCentral] at heqPC
            split at heqPC
            · cases heqPC
            · rename_i cs heq
              cases heqPC
              rw [centralSplitIntoParagraphs] at heq
              exact centralSplitPairs_citation rules _ _ _ _ _ heq c hc
        · cases h

/-- C4 (witness): the invariant applied to a concrete chunk carrying a
citation, produced by the self-contained parser. -/
theorem hasCitation_iff_citedCases_inst :
    c4Chunk ∈ (processDocumentTest c4Text "w.xml").chunks ∧
      (c4Chunk.has_citation = true ↔ c4Chunk.cited_cases ≠ []) :=
  ⟨by decide, hasCitation_iff_citedCases.1 c4Text "w.xml" c4Chunk (by decide)⟩

/-- C5 (counterexample): on the scenario input — `LORD REED:` header,
lead body, `LORD X (DISSENTING):` header, second body longer than 50
characters — the only chunk produced from the second author's body
(paragraph 2) has opinion type `majority`, not `dissenting`. -/
theorem dissentHeader_not_matched :
    ((processDocumentTest exC5Text "case.xml").chunks.map
      (fun c => (c.para_number, c.opinion_type))) = [(2, "majority")] := by decide

/-- C5 (amended): full evaluation of the scenario input: the
parenthesized header is not matched by `JUDGE_HEADER_REGEX` (its
character class has no parentheses), `DISSENTING` does not match the
word-boundary dissent pattern, so the second author's text merges into
the preceding block and its chunk keeps that block's `majority` opinion
under the author sentinel `Unknown Judge`. -/
theorem dissentHeader_scenario_eval :
    processDocumentTest exC5Text "case.xml" =
      { filename := "case.xml", citation := "[2024] UKSC 24", court_level := "UKSC",
        chunks := [{ para_number := 2,
                     content_text := "This paragraph follows the second header and is also long enough to count.",
                     author_name := "Unknown Judge", opinion_type := "majority",
                     section_type := "analysis", has_citation := false,
                     cited_cases := [] }] } := by decide

/-- C6 (counterexample): a lead paragraph numbered exactly 25 with a
facts heading is classified `facts`, although 25 is not below the
threshold 25 — the code gate is inclusive (`<= 25`). -/
theorem classifySection_at25_facts :
    classifySection 25 "Background facts of the matter" true = "facts" ∧
      ¬ ((25 : Int) < 25) :=
  ⟨by decide, by decide⟩

/-- C6 (amended): the Section Classifier returns `facts` exactly when
`is_lead` is true, the paragraph number is at most 25 (inclusive
threshold), and a facts-indicator phrase matches the first line; and a
lead paragraph numbered 30 headed `Background` with no history or
conclusion phrase falls through to `analysis`. -/
theorem classifySection_facts_char :
    (∀ (n : Int) (content : String) (isLead : Bool),
      (classifySection n content isLead = "facts" ↔
        (isLead = true ∧ n ≤ 25 ∧
          containsAnyCI (firstLine content)
            ["background", "facts", "introduction", "procedural history"] = true))) ∧
    classifySection 30 "Background\nNothing else decided here." true = "analysis" := by
  constructor
  · intro n content isLead
    rw [classifySection]
    split
    · next h => exact iff_of_true rfl h
    · next h =>
      refine iff_of_false (fun habs => ?_) h
      split at habs
      · exact absurd habs (by decide)
      · split at habs
        · exact absurd habs (by decide)
        · exact absurd habs (by decide)
  · decide

/-- C6 (witness): the characterization applied at a concrete lead
paragraph. -/
theorem classifySection_facts_char_inst :
    classifySection 10 "Background\nx" true = "facts" ↔
      (true = true ∧ (10 : Int) ≤ 25 ∧
        containsAnyCI (firstLine "Background\nx")
          ["background", "facts", "introduction", "procedural history"] = true) :=
  classifySection_facts_char.1 10 "Background\nx" true

/-- C8: both embedded parsers are pure functions of the document text
and the configuration, so two runs on the same input produce identical
parse results. -/
theorem parsing_deterministic :
    ∀ (rules : CentralRules) (courts : List Court) (text rawText fname : String),
      processDocumentCentral rules courts text = processDocumentCentral rules courts text ∧
      processDocumentTest rawText fname = processDocumentTest rawText fname := by
  intro rules courts text rawText fname
  exact ⟨rfl, rfl⟩

/-- C7 (counterexample): the config-driven parser emits a chunk with
empty `content_text` when a numbered-paragraph marker ends the document
with nothing after it — the unitary parse of `"x [2024] UKSC 1\n1. "`
produces exactly one chunk whose content is the empty string. -/
theorem centralEmptyBody_chunk :
    (parseUnitaryCentral exRules unitCourt "x [2024] UKSC 1\n1. ").map
      (fun pc => pc.chunks.map (fun c => c.content_text)) = Except.ok [""] := rfl

/-- C7 (witness): the nonempty-content property applied to a concrete
chunk of the self-contained pair loop. -/
theorem testChunks_nonempty_content_inst :
    c7wChunk ∈ splitTestPairs [("1", "Hello there world")] "A" "majority" true ∧
      c7wChunk.content_text ≠ "" :=
  ⟨by decide,
    testChunks_nonempty_content [("1", "Hello there world")] "A" "majority" true
      c7wChunk (by decide)⟩

/-- C9: when the first matching court profile has a structure type other
than `seriatim` or `unitary`, the config-driven router returns the same
explicit no-result signal (`none`) as when no profile matches at all,
without running either parse strategy. -/
theorem router_unknown_structure (rules : CentralRules) (courts : List Court) (text : String) :
    (∀ court, courts.find? (fun c => (c.identSearch text).isSome) = some court →
      court.structureType ≠ "seriatim" → court.structureType ≠ "unitary" →
      processDocumentCentral rules courts text = Except.ok none) ∧
    (courts.find? (fun c => (c.identSearch text).isSome) = none →
      processDocumentCentral rules courts text = Except.ok none) := by
  constructor
  · intro court hfind h1 h2
    simp only [processDocumentCentral, hfind]
    rw [if_neg (by simp only [beq_iff_eq]; exact h1),
      if_neg (by simp only [beq_iff_eq]; exact h2)]
  · intro hfind
    simp only [processDocumentCentral, hfind]

/-- C9 (witness): the router applied to a matching profile whose
structure type is `en_banc`. -/
theorem router_unknown_structure_inst :
    processDocumentCentral exRules [weirdCourt] "document text" = Except.ok none :=
  (router_unknown_structure exRules [weirdCourt] "document text").1 weirdCourt rfl
    (by decide) (by decide)

/-- C10: in the self-contained seriatim loop with the lead not yet
consumed, a qualifying non-header body segment that yields no chunks
contributes nothing and leaves the `seen_first_judge` flag false, so
processing continues exactly as if the segment were absent — the next
qualifying body segment is still treated as lead. -/
theorem leadFlag_kept_on_empty (author b : String) (rest : List String)
    (h1 : isHeaderTest b = false) (h2 : ¬ ((pyStrip b).length < 50))
    (h3 : splitIntoParagraphsTest (pyStrip b) author
      (testOpinion author (pyStrip b) true) true = []) :
    processTestLoop author false (b :: rest) = processTestLoop author false rest := by
  rw [processTestLoop]
  rw [if_neg (by simp [h1])]
  simp only [Bool.not_false]
  rw [if_neg h2, h3]
  simp

/-- C10 (witness): the lead-preservation equation applied to a concrete
60-character segment containing no numbered paragraph. -/
theorem leadFlag_kept_on_empty_inst :
    isHeaderTest c10Seg = false ∧ ¬ ((pyStrip c10Seg).length < 50) ∧
      splitIntoParagraphsTest (pyStrip c10Seg) "Unknown Judge"
        (testOpinion "Unknown Judge" (pyStrip c10Seg) true) true = [] ∧
      processTestLoop "Unknown Judge" false (c10Seg :: c10Rest) =
        processTestLoop "Unknown Judge" false c10Rest :=
  ⟨by decide, by decide, by decide,
    leadFlag_kept_on_empty "Unknown Judge" c10Seg c10Rest (by decide) (by decide) (by decide)⟩
